import Mathlib

/-!
# UDJ desktop client: the server connection

A shallow embedding of `src/UDJServerConnection.hpp` (class
`UDJ::UDJServerConnection`) and the properties of its session state, request
builders and reply dispatcher.

The header defines the session setters, the URL and name constants and declares
every operation, signal, reply handler and URL getter.  The bodies of the
operations, of the URL getters and of `recievedReply` live in
`UDJServerConnection.cpp`, which is not part of the sources at hand; those parts
are modelled from the design document and are marked as such.
-/

namespace UDJ

/-! ## Qt value types -/

/-- Qt byte array, embedded as a string (an empty array is the empty string). -/
abbrev QByteArray := String

/-- Qt string. -/
abbrev QString := String

/-- One raw header of a request or reply: `QNetworkReply::RawHeaderPair`,
a pair (name, value). -/
abbrev RawHeaderPair := QByteArray × QByteArray

/-- Modelled from the spec: `ConfigDefs.hpp`, which declares `user_id_t`, is missing;
identifiers are opaque values issued by the service, numeric in every scenario. -/
abbrev user_id_t := Int

/-- Modelled from the spec: `ConfigDefs.hpp`, which declares `player_id_t`, is
missing; identifiers are opaque values issued by the service, numeric in every
scenario. -/
abbrev player_id_t := Int

/-- Modelled from the spec: `ConfigDefs.hpp`, which declares `library_song_id_t`,
is missing; identifiers are opaque values issued by the service. -/
abbrev library_song_id_t := Int

/-- The part of `QVariant` the connection uses: decoded JSON values. -/
inductive QVariant where
  | invalid
  | bool (b : Bool)
  | int (n : Int)
  | string (s : String)
  | list (xs : List QVariant)
  | map (kvs : List (String × QVariant))

/-- List of variants: `QVariantList`. -/
abbrev QVariantList := List QVariant

/-- String-keyed map of variants: `QVariantMap`. -/
abbrev QVariantMap := List (String × QVariant)

namespace QVariant

/-- The value of `QVariant::toString` on the variants used here: the empty string when the
variant holds no string. -/
def toQString : QVariant → QString
  | string s => s
  | _ => ""

/-- The value of `QVariant::toLongLong`: zero when the variant holds no number. -/
def toLongLong : QVariant → Int
  | int n => n
  | _ => 0

/-- The value of `QVariant::toList`: empty when the variant holds no list. -/
def toList : QVariant → QVariantList
  | list xs => xs
  | _ => []

/-- The value of `QVariant::toMap`: empty when the variant holds no map. -/
def toMap : QVariant → QVariantMap
  | map kvs => kvs
  | _ => []

end QVariant

/-- Lookup in a `QVariantMap` (`operator[]` on a const map): the invalid variant when the
key is absent. -/
def QVariantMap.value (m : QVariantMap) (key : String) : QVariant :=
  match m.find? (fun kv => kv.1 == key) with
  | some kv => kv.2
  | none => QVariant.invalid

/-- The numeric ids held by a variant list. -/
def QVariantList.toIds (xs : QVariantList) : List library_song_id_t :=
  xs.map QVariant.toLongLong

/-- The HTTP verb of a request: `QNetworkAccessManager::Operation`. -/
inductive NetOperation where
  | HeadOperation
  | GetOperation
  | PutOperation
  | PostOperation
  | DeleteOperation
  | CustomOperation
deriving DecidableEq, Repr, Fintype

/-- A URL of the service: the service root it is built on and the path components
relative to that root. -/
structure QUrl where
  root : String
  path : List String
deriving DecidableEq, Repr

/-- The URL in string form: the root followed by the path components joined by
slashes. -/
def QUrl.toQString (u : QUrl) : String :=
  u.root ++ "/".intercalate u.path

/-- Value of the first header named `name`, if any (`rawHeader`). -/
def rawHeader (headers : List RawHeaderPair) (name : QByteArray) : Option QByteArray :=
  (headers.find? (fun h => h.1 == name)).map Prod.snd

/-- Set header `name` to `value`, replacing an earlier header of that name
(`setRawHeader`). -/
def setRawHeader (headers : List RawHeaderPair) (name value : QByteArray) :
    List RawHeaderPair :=
  headers.filter (fun h => !(h.1 == name)) ++ [(name, value)]

/-- A request under construction: `QNetworkRequest`. -/
structure QNetworkRequest where
  url : QUrl
  rawHeaders : List RawHeaderPair

/-! ## Session state (defined in the header) -/

/-- The private members of `UDJServerConnection` that make up the session. -/
structure UDJServerConnection where
  ticket_hash : QByteArray
  user_id : user_id_t
  playerId : player_id_t
deriving DecidableEq, Repr

namespace UDJServerConnection

/-- Source `setTicket`: `ticket_hash = ticket;`. -/
def setTicket (c : UDJServerConnection) (ticket : QByteArray) : UDJServerConnection :=
  { c with ticket_hash := ticket }

/-- Source `setUserId`: `user_id = userId;`. -/
def setUserId (c : UDJServerConnection) (userId : user_id_t) : UDJServerConnection :=
  { c with user_id := userId }

/-- Source `setPlayerId`: `playerId = newPlayerId;`. -/
def setPlayerId (c : UDJServerConnection) (newPlayerId : player_id_t) :
    UDJServerConnection :=
  { c with playerId := newPlayerId }

end UDJServerConnection

/-! ## Private constants (defined in the header) -/

/-- Source `getServerPortNumber`. -/
def getServerPortNumber : QString := "4897"

/-- Source `getServerUrlPath`. -/
def getServerUrlPath : QString :=
  "https://udjplayer.com:" ++ getServerPortNumber ++ "/udj/0_6/"

/-- Source `getAuthUrl`: `QUrl(getServerUrlPath() + "auth")`. -/
def getAuthUrl : QUrl := ⟨getServerUrlPath, ["auth"]⟩

/-- Source `getTicketHeaderName`. -/
def getTicketHeaderName : QByteArray := "X-Udj-Ticket-Hash"

/-- Source `getMissingResourceHeader`. -/
def getMissingResourceHeader : QByteArray := "X-Udj-Missing-Resource"

/-- Source `getPlayerNamePropertyName`. -/
def getPlayerNamePropertyName : String := "player_name"

/-- Source `getPlayerPasswordPropertyName`. -/
def getPlayerPasswordPropertyName : String := "playerPassword"

/-- Source `getLocationAddressPropertyName`. -/
def getLocationAddressPropertyName : String := "address"

/-- Source `getLocationCityPropertyName`. -/
def getLocationCityPropertyName : String := "city"

/-- Source `getLocationStatePropertyName`. -/
def getLocationStatePropertyName : String := "state"

/-- Source `getLocationZipcodePropertyName`. -/
def getLocationZipcodePropertyName : String := "zipcode"

/-- Source `getStatePropertyName`. -/
def getStatePropertyName : String := "state"

/-- Source `getSongsAddedPropertyName`. -/
def getSongsAddedPropertyName : String := "songs_added"

/-- Source `getSongsDeletedPropertyName`. -/
def getSongsDeletedPropertyName : String := "songs_deleted"

/-- Source `getSongsRemovedPropertyName`. -/
def getSongsRemovedPropertyName : String := "songs_removed"

/-! ## Operations and signals (declared in the header) -/

/-- The public operations of `UDJServerConnection` (the three overloads of
`createPlayer` are one operation). -/
inductive Operation where
  | authenticate
  | createPlayer
  | getActivePlaylist
  | modActivePlaylist
  | setCurrentSong
  | clearCurrentSong
  | setVolume
  | setPlayerPassword
  | removePlayerPassword
  | setPlayerLocation
  | modLibContents
  | getParticipantList
  | getSortingAlgorithms
  | setPlayerState
deriving DecidableEq, Repr, Fintype

/-- The signals declared by `UDJServerConnection`, in the order of the header. -/
inductive SignalName where
  | authenticated
  | authFailed
  | gotSortingAlgorithms
  | getSortingAlgorithmsError
  | playerPasswordRemoved
  | playerPasswordRemoveError
  | playerPasswordSet
  | playerPasswordSetError
  | playerLocationSet
  | playerLocationSetError
  | playerNameChanged
  | playerNameChangeError
  | currentSongCleared
  | currentSongClearError
  | playerStateSet
  | playerStateSetError
  | libSongsSyncedToServer
  | libModError
  | playerCreated
  | playerCreationFailed
  | newActivePlaylist
  | getActivePlaylistFail
  | newParticipantList
  | getParticipantsError
  | currentSongSet
  | setCurrentSongFailed
  | activePlaylistModified
  | activePlaylistModFailed
  | volumeSetOnServer
  | setVolumeFailed
deriving DecidableEq, Repr, Fintype

/-- One formal parameter of a signal declaration: its C++ type and its name. -/
structure Parameter where
  type : String
  name : String
deriving DecidableEq, Repr

/-- The three parameters the header gives to a failure signal:
`const QString& errMessage, int errorCode,
const QList<QNetworkReply::RawHeaderPair>& headers`. -/
def failureParameters : List Parameter :=
  [⟨"QString", "errMessage"⟩, ⟨"int", "errorCode"⟩,
   ⟨"QList<QNetworkReply::RawHeaderPair>", "headers"⟩]

/-- The parameter list of each signal, as declared in the header. -/
def signalParameters : SignalName → List Parameter
  | .authenticated => [⟨"QByteArray", "ticketHash"⟩, ⟨"user_id_t", "userId"⟩]
  | .authFailed => failureParameters
  | .gotSortingAlgorithms => [⟨"QVariantList", "sortingAlgorithms"⟩]
  | .getSortingAlgorithmsError => failureParameters
  | .playerPasswordRemoved => []
  | .playerPasswordRemoveError => failureParameters
  | .playerPasswordSet => [⟨"QString", "password"⟩]
  | .playerPasswordSetError => ⟨"QString", "attemptedPassword"⟩ :: failureParameters
  | .playerLocationSet =>
      [⟨"QString", "streetAddress"⟩, ⟨"QString", "city"⟩, ⟨"QString", "state"⟩,
       ⟨"QString", "zipcode"⟩]
  | .playerLocationSetError => failureParameters
  | .playerNameChanged => [⟨"QString", "newName"⟩]
  | .playerNameChangeError => failureParameters
  | .currentSongCleared => []
  | .currentSongClearError => failureParameters
  | .playerStateSet => [⟨"QString", "newState"⟩]
  | .playerStateSetError => ⟨"QString", "desiredState"⟩ :: failureParameters
  | .libSongsSyncedToServer => [⟨"QSet<library_song_id_t>", "syncedIds"⟩]
  | .libModError => failureParameters
  | .playerCreated => [⟨"player_id_t", "issuedId"⟩]
  | .playerCreationFailed => failureParameters
  | .newActivePlaylist => [⟨"QVariantMap", "newPlaylist"⟩]
  | .getActivePlaylistFail => failureParameters
  | .newParticipantList => [⟨"QVariantList", "newParticipants"⟩]
  | .getParticipantsError => failureParameters
  | .currentSongSet => []
  | .setCurrentSongFailed => failureParameters
  | .activePlaylistModified =>
      [⟨"QSet<library_song_id_t>", "added"⟩, ⟨"QSet<library_song_id_t>", "removed"⟩]
  | .activePlaylistModFailed => failureParameters
  | .volumeSetOnServer => []
  | .setVolumeFailed => failureParameters

/-- Whether the header documents the signal as reporting an error or failure
("Emitted when there was an error ...", "... a failure to ..."). -/
def isFailureSignal : SignalName → Bool
  | .authFailed | .getSortingAlgorithmsError | .playerPasswordRemoveError
  | .playerPasswordSetError | .playerLocationSetError | .playerNameChangeError
  | .currentSongClearError | .playerStateSetError | .libModError
  | .playerCreationFailed | .getActivePlaylistFail | .getParticipantsError
  | .setCurrentSongFailed | .activePlaylistModFailed | .setVolumeFailed => true
  | _ => false

/-- The operation whose outcome a signal reports, by the signal's name and
documentation in the header. The two player-name signals belong to no public
operation. -/
def signalOperation : SignalName → Option Operation
  | .authenticated | .authFailed => some .authenticate
  | .gotSortingAlgorithms | .getSortingAlgorithmsError => some .getSortingAlgorithms
  | .playerPasswordRemoved | .playerPasswordRemoveError => some .removePlayerPassword
  | .playerPasswordSet | .playerPasswordSetError => some .setPlayerPassword
  | .playerLocationSet | .playerLocationSetError => some .setPlayerLocation
  | .playerNameChanged | .playerNameChangeError => none
  | .currentSongCleared | .currentSongClearError => some .clearCurrentSong
  | .playerStateSet | .playerStateSetError => some .setPlayerState
  | .libSongsSyncedToServer | .libModError => some .modLibContents
  | .playerCreated | .playerCreationFailed => some .createPlayer
  | .newActivePlaylist | .getActivePlaylistFail => some .getActivePlaylist
  | .newParticipantList | .getParticipantsError => some .getParticipantList
  | .currentSongSet | .setCurrentSongFailed => some .setCurrentSong
  | .activePlaylistModified | .activePlaylistModFailed => some .modActivePlaylist
  | .volumeSetOnServer | .setVolumeFailed => some .setVolume

/-- Every declared signal, in the order of the header. -/
def allSignals : List SignalName :=
  [.authenticated, .authFailed, .gotSortingAlgorithms, .getSortingAlgorithmsError,
   .playerPasswordRemoved, .playerPasswordRemoveError, .playerPasswordSet,
   .playerPasswordSetError, .playerLocationSet, .playerLocationSetError,
   .playerNameChanged, .playerNameChangeError, .currentSongCleared,
   .currentSongClearError, .playerStateSet, .playerStateSetError,
   .libSongsSyncedToServer, .libModError, .playerCreated, .playerCreationFailed,
   .newActivePlaylist, .getActivePlaylistFail, .newParticipantList,
   .getParticipantsError, .currentSongSet, .setCurrentSongFailed,
   .activePlaylistModified, .activePlaylistModFailed, .volumeSetOnServer,
   .setVolumeFailed]

/-- The signals that report the success of operation `op`. -/
def successEventsOf (op : Operation) : List SignalName :=
  allSignals.filter (fun s => signalOperation s == some op && !isFailureSignal s)

/-- The signals that report the failure of operation `op`. -/
def failureEventsOf (op : Operation) : List SignalName :=
  allSignals.filter (fun s => signalOperation s == some op && isFailureSignal s)

/-- An emitted signal with its arguments, typed as the header declares them. -/
inductive Signal where
  | authenticated (ticketHash : QByteArray) (userId : user_id_t)
  | authFailed (errMessage : QString) (errorCode : Int) (headers : List RawHeaderPair)
  | gotSortingAlgorithms (sortingAlgorithms : QVariantList)
  | getSortingAlgorithmsError (errMessage : QString) (errorCode : Int)
      (headers : List RawHeaderPair)
  | playerPasswordRemoved
  | playerPasswordRemoveError (errMessage : QString) (errorCode : Int)
      (headers : List RawHeaderPair)
  | playerPasswordSet (password : QString)
  | playerPasswordSetError (attemptedPassword : QString) (errMessage : QString)
      (errorCode : Int) (headers : List RawHeaderPair)
  | playerLocationSet (streetAddress city state zipcode : QString)
  | playerLocationSetError (errMessage : QString) (errorCode : Int)
      (headers : List RawHeaderPair)
  | playerNameChanged (newName : QString)
  | playerNameChangeError (errMessage : QString) (errorCode : Int)
      (headers : List RawHeaderPair)
  | currentSongCleared
  | currentSongClearError (errMessage : QString) (errorCode : Int)
      (headers : List RawHeaderPair)
  | playerStateSet (newState : QString)
  | playerStateSetError (desiredState : QString) (errMessage : QString)
      (errorCode : Int) (headers : List RawHeaderPair)
  | libSongsSyncedToServer (syncedIds : List library_song_id_t)
  | libModError (errMessage : QString) (errorCode : Int) (headers : List RawHeaderPair)
  | playerCreated (issuedId : player_id_t)
  | playerCreationFailed (errMessage : QString) (errorCode : Int)
      (headers : List RawHeaderPair)
  | newActivePlaylist (newPlaylist : QVariantMap)
  | getActivePlaylistFail (errMessage : QString) (errorCode : Int)
      (headers : List RawHeaderPair)
  | newParticipantList (newParticipants : QVariantList)
  | getParticipantsError (errMessage : QString) (errorCode : Int)
      (headers : List RawHeaderPair)
  | currentSongSet
  | setCurrentSongFailed (errMessage : QString) (errorCode : Int)
      (headers : List RawHeaderPair)
  | activePlaylistModified (added removed : List library_song_id_t)
  | activePlaylistModFailed (errMessage : QString) (errorCode : Int)
      (headers : List RawHeaderPair)
  | volumeSetOnServer
  | setVolumeFailed (errMessage : QString) (errorCode : Int)
      (headers : List RawHeaderPair)

/-- The name of an emitted signal. -/
def Signal.name : Signal → SignalName
  | .authenticated .. => .authenticated
  | .authFailed .. => .authFailed
  | .gotSortingAlgorithms .. => .gotSortingAlgorithms
  | .getSortingAlgorithmsError .. => .getSortingAlgorithmsError
  | .playerPasswordRemoved => .playerPasswordRemoved
  | .playerPasswordRemoveError .. => .playerPasswordRemoveError
  | .playerPasswordSet .. => .playerPasswordSet
  | .playerPasswordSetError .. => .playerPasswordSetError
  | .playerLocationSet .. => .playerLocationSet
  | .playerLocationSetError .. => .playerLocationSetError
  | .playerNameChanged .. => .playerNameChanged
  | .playerNameChangeError .. => .playerNameChangeError
  | .currentSongCleared => .currentSongCleared
  | .currentSongClearError .. => .currentSongClearError
  | .playerStateSet .. => .playerStateSet
  | .playerStateSetError .. => .playerStateSetError
  | .libSongsSyncedToServer .. => .libSongsSyncedToServer
  | .libModError .. => .libModError
  | .playerCreated .. => .playerCreated
  | .playerCreationFailed .. => .playerCreationFailed
  | .newActivePlaylist .. => .newActivePlaylist
  | .getActivePlaylistFail .. => .getActivePlaylistFail
  | .newParticipantList .. => .newParticipantList
  | .getParticipantsError .. => .getParticipantsError
  | .currentSongSet => .currentSongSet
  | .setCurrentSongFailed .. => .setCurrentSongFailed
  | .activePlaylistModified .. => .activePlaylistModified
  | .activePlaylistModFailed .. => .activePlaylistModFailed
  | .volumeSetOnServer => .volumeSetOnServer
  | .setVolumeFailed .. => .setVolumeFailed

/-- What a failure signal carries in its last three arguments: the message, the
HTTP status code and the headers. None for a signal that is no failure signal. -/
def Signal.failureInfo : Signal → Option (QString × Int × List RawHeaderPair)
  | .authFailed m c h => some (m, c, h)
  | .getSortingAlgorithmsError m c h => some (m, c, h)
  | .playerPasswordRemoveError m c h => some (m, c, h)
  | .playerPasswordSetError _ m c h => some (m, c, h)
  | .playerLocationSetError m c h => some (m, c, h)
  | .playerNameChangeError m c h => some (m, c, h)
  | .currentSongClearError m c h => some (m, c, h)
  | .playerStateSetError _ m c h => some (m, c, h)
  | .libModError m c h => some (m, c, h)
  | .playerCreationFailed m c h => some (m, c, h)
  | .getActivePlaylistFail m c h => some (m, c, h)
  | .getParticipantsError m c h => some (m, c, h)
  | .setCurrentSongFailed m c h => some (m, c, h)
  | .activePlaylistModFailed m c h => some (m, c, h)
  | .setVolumeFailed m c h => some (m, c, h)
  | _ => none

/-! ## The endpoint table (spec, section 6)

The URL getters other than `getAuthUrl` are declared in the header and defined in
the missing `UDJServerConnection.cpp`; the table of the design document stands in
for them. -/

/-- One component of a path shape: a fixed word, or the place of an id. -/
inductive Segment where
  | lit (s : String)
  | id
deriving DecidableEq, Repr

/-- One row of the endpoint table: the method a request is sent with, further
methods the row lists, the path shape relative to the service root, whether the
row says authentication is required, and the status that means success. -/
structure Endpoint where
  method : NetOperation
  alternates : List NetOperation
  shape : List Segment
  authRequired : Bool
  successStatus : Int
deriving DecidableEq, Repr

/-- All methods a row lists. -/
def Endpoint.methods (e : Endpoint) : List NetOperation :=
  e.method :: e.alternates

/-- The shape `players/{id}/leaf`. -/
def playerShape (leaf : String) : List Segment :=
  [.lit "players", .id, .lit leaf]

/-- Modelled from the spec: the bodies of the URL getters and of the operations
are missing; this is the table of section 6, row by row (the row
"set/remove password, PUT/DELETE" is the two operations it names, and the row
"modify active playlist, POST/PUT" lists two methods for one operation). -/
def endpoint : Operation → Endpoint
  | .authenticate => ⟨.PostOperation, [], [.lit "auth"], false, 200⟩
  | .createPlayer => ⟨.PostOperation, [], [.lit "players"], false, 201⟩
  | .getActivePlaylist => ⟨.GetOperation, [], playerShape "playlist", true, 200⟩
  | .modActivePlaylist =>
      ⟨.PostOperation, [.PutOperation], playerShape "playlist", true, 200⟩
  | .setCurrentSong => ⟨.PutOperation, [], playerShape "current_song", true, 200⟩
  | .clearCurrentSong => ⟨.DeleteOperation, [], playerShape "current_song", true, 200⟩
  | .setVolume => ⟨.PutOperation, [], playerShape "volume", true, 200⟩
  | .setPlayerPassword => ⟨.PutOperation, [], playerShape "password", true, 200⟩
  | .removePlayerPassword => ⟨.DeleteOperation, [], playerShape "password", true, 200⟩
  | .setPlayerLocation => ⟨.PutOperation, [], playerShape "location", true, 200⟩
  | .modLibContents => ⟨.PostOperation, [], playerShape "library", true, 200⟩
  | .getParticipantList => ⟨.GetOperation, [], playerShape "participants", true, 200⟩
  | .getSortingAlgorithms => ⟨.GetOperation, [], [.lit "sorting_algorithms"], false, 200⟩
  | .setPlayerState => ⟨.PutOperation, [], playerShape "state", true, 200⟩

/-- The operations in the order of the table. -/
def allOperations : List Operation :=
  [.authenticate, .createPlayer, .getActivePlaylist, .modActivePlaylist,
   .setCurrentSong, .clearCurrentSong, .setVolume, .setPlayerPassword,
   .removePlayerPassword, .setPlayerLocation, .modLibContents, .getParticipantList,
   .getSortingAlgorithms, .setPlayerState]

/-- Whether a path component fits a component of a shape: an id place takes any
component. -/
def Segment.accepts : Segment → String → Bool
  | .lit s, x => s == x
  | .id, _ => true

/-- Whether a path fits a shape, component by component. -/
def matchesShape : List Segment → List String → Bool
  | [], [] => true
  | s :: ss, x :: xs => s.accepts x && matchesShape ss xs
  | _, _ => false

/-- Whether two shapes can be fitted by one and the same path: equal length, and
at each place equal words or an id place. -/
def shapesOverlap : List Segment → List Segment → Bool
  | [], [] => true
  | .lit a :: ss, .lit b :: ts => a == b && shapesOverlap ss ts
  | _ :: ss, _ :: ts => shapesOverlap ss ts
  | _, _ => false

/-- Whether the rows of two operations clash: they list a common method and their
shapes can be fitted by one path. -/
def rowsClash (op1 op2 : Operation) : Bool :=
  (endpoint op1).methods.any (fun m => (endpoint op2).methods.contains m) &&
    shapesOverlap (endpoint op1).shape (endpoint op2).shape

/-- The path with the id places of a shape filled by `id`. -/
def instantiate (id : String) : List Segment → List String
  | [] => []
  | .lit s :: ss => s :: instantiate id ss
  | .id :: ss => id :: instantiate id ss

/-- Whether a (method, path) pair belongs to the row of `op`. -/
def matchesEndpoint (op : Operation) (method : NetOperation) (path : List String) : Bool :=
  (endpoint op).methods.contains method && matchesShape (endpoint op).shape path

/-- Modelled from the spec: the URL getters (`getCreatePlayerUrl`,
`getActivePlaylistUrl`, `getCurrentSongUrl`, `getVolumeUrl`, `getPlayerPasswordUrl`,
`getPlayerLocationUrl`, `getLibModUrl`, `getParticipantsUrl`, `getSortingAlgosUrl`,
`getPlayerStateUrl`) have no body in the sources; each URL is the service root
followed by the path shape of the operation with the session player id in the
id place. -/
def urlOf (c : UDJServerConnection) (op : Operation) : QUrl :=
  ⟨getServerUrlPath, instantiate (toString c.playerId) (endpoint op).shape⟩

/-- Modelled from the spec: `getCreatePlayerUrl` is declared without a body; see `urlOf`. -/
def getCreatePlayerUrl (c : UDJServerConnection) : QUrl := urlOf c .createPlayer

/-- Modelled from the spec: `getActivePlaylistUrl` is declared without a body; see `urlOf`. -/
def getActivePlaylistUrl (c : UDJServerConnection) : QUrl := urlOf c .getActivePlaylist

/-- Modelled from the spec: `getCurrentSongUrl` is declared without a body; see `urlOf`. -/
def getCurrentSongUrl (c : UDJServerConnection) : QUrl := urlOf c .setCurrentSong

/-- Modelled from the spec: `getVolumeUrl` is declared without a body; see `urlOf`. -/
def getVolumeUrl (c : UDJServerConnection) : QUrl := urlOf c .setVolume

/-- Modelled from the spec: `getPlayerPasswordUrl` is declared without a body; see `urlOf`. -/
def getPlayerPasswordUrl (c : UDJServerConnection) : QUrl := urlOf c .setPlayerPassword

/-- Modelled from the spec: `getPlayerLocationUrl` is declared without a body; see `urlOf`. -/
def getPlayerLocationUrl (c : UDJServerConnection) : QUrl := urlOf c .setPlayerLocation

/-- Modelled from the spec: `getLibModUrl` is declared without a body; see `urlOf`. -/
def getLibModUrl (c : UDJServerConnection) : QUrl := urlOf c .modLibContents

/-- Modelled from the spec: `getParticipantsUrl` is declared without a body; see `urlOf`. -/
def getParticipantsUrl (c : UDJServerConnection) : QUrl := urlOf c .getParticipantList

/-- Modelled from the spec: `getSortingAlgosUrl` is declared without a body; see `urlOf`. -/
def getSortingAlgosUrl (c : UDJServerConnection) : QUrl := urlOf c .getSortingAlgorithms

/-- Modelled from the spec: `getPlayerStateUrl` is declared without a body; see `urlOf`. -/
def getPlayerStateUrl (c : UDJServerConnection) : QUrl := urlOf c .setPlayerState

/-! ## Request builders (spec, section 4.1) -/

/-- An invocation of a public operation with its arguments, one constructor per
declaration in the header. -/
inductive Call where
  | authenticate (username password : QString)
  | createPlayer (playerName password : QString)
  | createPlayerAt (playerName password streetAddress city state zipcode : QString)
  | createPlayerFrom (payload : QVariant)
  | getActivePlaylist
  | modActivePlaylist (toAdd toRemove : List library_song_id_t)
  | setCurrentSong (currentSong : library_song_id_t)
  | setVolume (newVolume : Int)
  | clearCurrentSong
  | getParticipantList
  | getSortingAlgorithms
  | setPlayerLocation (streetAddress city state zipcode : QString)
  | removePlayerPassword
  | setPlayerPassword (newPassword : QString)
  | setPlayerState (newState : QString)
  | modLibContents (songsToAdd songsToDelete : QVariantList)

/-- The operation an invocation belongs to. -/
def Call.operation : Call → Operation
  | .authenticate .. => .authenticate
  | .createPlayer .. => .createPlayer
  | .createPlayerAt .. => .createPlayer
  | .createPlayerFrom .. => .createPlayer
  | .getActivePlaylist => .getActivePlaylist
  | .modActivePlaylist .. => .modActivePlaylist
  | .setCurrentSong .. => .setCurrentSong
  | .setVolume .. => .setVolume
  | .clearCurrentSong => .clearCurrentSong
  | .getParticipantList => .getParticipantList
  | .getSortingAlgorithms => .getSortingAlgorithms
  | .setPlayerLocation .. => .setPlayerLocation
  | .removePlayerPassword => .removePlayerPassword
  | .setPlayerPassword .. => .setPlayerPassword
  | .setPlayerState .. => .setPlayerState
  | .modLibContents .. => .modLibContents

/-- The variant list holding the given ids. -/
def idList (ids : List library_song_id_t) : QVariant :=
  .list (ids.map QVariant.int)

/-- Modelled from the spec: the operation bodies are missing; bodies are JSON
objects with a fixed key set per operation (section 4.1), the keys being the
property names of the header where it has one; a password is always written,
empty or not; the volume and the current song id are sent as the bare value. -/
def Call.payload : Call → QVariant
  | .authenticate username password =>
      .map [("username", .string username), ("password", .string password)]
  | .createPlayer playerName password =>
      .map [(getPlayerNamePropertyName, .string playerName),
            (getPlayerPasswordPropertyName, .string password)]
  | .createPlayerAt playerName password streetAddress city state zipcode =>
      .map [(getPlayerNamePropertyName, .string playerName),
            (getPlayerPasswordPropertyName, .string password),
            (getLocationAddressPropertyName, .string streetAddress),
            (getLocationCityPropertyName, .string city),
            (getLocationStatePropertyName, .string state),
            (getLocationZipcodePropertyName, .string zipcode)]
  | .createPlayerFrom payload => payload
  | .getActivePlaylist => .invalid
  | .modActivePlaylist toAdd toRemove =>
      .map [(getSongsAddedPropertyName, idList toAdd),
            (getSongsRemovedPropertyName, idList toRemove)]
  | .setCurrentSong currentSong => .int currentSong
  | .setVolume newVolume => .int newVolume
  | .clearCurrentSong => .invalid
  | .getParticipantList => .invalid
  | .getSortingAlgorithms => .invalid
  | .setPlayerLocation streetAddress city state zipcode =>
      .map [(getLocationAddressPropertyName, .string streetAddress),
            (getLocationCityPropertyName, .string city),
            (getLocationStatePropertyName, .string state),
            (getLocationZipcodePropertyName, .string zipcode)]
  | .removePlayerPassword => .invalid
  | .setPlayerPassword newPassword =>
      .map [(getPlayerPasswordPropertyName, .string newPassword)]
  | .setPlayerState newState => .map [(getStatePropertyName, .string newState)]
  | .modLibContents songsToAdd songsToDelete =>
      .map [(getSongsAddedPropertyName, .list songsToAdd),
            (getSongsDeletedPropertyName, .list songsToDelete)]

/-- Modelled from the spec: the operation bodies are missing; the arguments that
an outcome signal repeats (attempted password, desired state, location, song
sets) stay with the exchange as properties under the property names of the
header. -/
def Call.properties : Call → QVariantMap
  | .modActivePlaylist toAdd toRemove =>
      [(getSongsAddedPropertyName, idList toAdd),
       (getSongsRemovedPropertyName, idList toRemove)]
  | .setPlayerLocation streetAddress city state zipcode =>
      [(getLocationAddressPropertyName, .string streetAddress),
       (getLocationCityPropertyName, .string city),
       (getLocationStatePropertyName, .string state),
       (getLocationZipcodePropertyName, .string zipcode)]
  | .setPlayerPassword newPassword =>
      [(getPlayerPasswordPropertyName, .string newPassword)]
  | .setPlayerState newState => [(getStatePropertyName, .string newState)]
  | .modLibContents songsToAdd songsToDelete =>
      [(getSongsAddedPropertyName, .list songsToAdd),
       (getSongsDeletedPropertyName, .list songsToDelete)]
  | _ => []

/-- A request handed to the network access manager: the method, the request,
the body and the properties attached to the pending exchange. -/
structure IssuedRequest where
  operation : NetOperation
  request : QNetworkRequest
  payload : QVariant
  properties : QVariantMap

/-- Modelled from the spec: `prepareJSONRequest` is declared without a body; by
section 4.1 every request except authentication gets the session ticket hash as
the ticket header. -/
def prepareJSONRequest (c : UDJServerConnection) (request : QNetworkRequest) :
    QNetworkRequest :=
  { request with
    rawHeaders := setRawHeader request.rawHeaders getTicketHeaderName c.ticket_hash }

/-- Modelled from the spec: the bodies of the public operations are missing. An
operation builds the URL of its row, attaches the ticket header unless it is
authentication, and hands the request to the transport at once with the method
of its row (sections 4.1, 4.3 and 6); there is no other precondition. -/
def issue (c : UDJServerConnection) (call : Call) : IssuedRequest :=
  let request : QNetworkRequest := ⟨urlOf c call.operation, []⟩
  { operation := (endpoint call.operation).method
    request := if call.operation = .authenticate then request
               else prepareJSONRequest c request
    payload := call.payload
    properties := call.properties }

/-- The ticket hash an issued request carries, if any. -/
def IssuedRequest.ticket (r : IssuedRequest) : Option QByteArray :=
  rawHeader r.request.rawHeaders getTicketHeaderName

/-! ## Use of the connection over time -/

/-- One step of the owner of the connection: a setter or an operation. -/
inductive Action where
  | setTicket (ticket : QByteArray)
  | setUserId (userId : user_id_t)
  | setPlayerId (newPlayerId : player_id_t)
  | invoke (call : Call)

/-- Whether the step is a call of `setTicket`. -/
def Action.isSetTicket : Action → Bool
  | .setTicket _ => true
  | _ => false

/-- The state after one step. -/
def stepState (c : UDJServerConnection) : Action → UDJServerConnection
  | .setTicket t => c.setTicket t
  | .setUserId u => c.setUserId u
  | .setPlayerId p => c.setPlayerId p
  | .invoke _ => c

/-- The state after a sequence of steps. -/
def runState (c : UDJServerConnection) : List Action → UDJServerConnection
  | [] => c
  | a :: rest => runState (stepState c a) rest

/-! ## Reply dispatcher (spec, section 4.3) -/

/-- A completed exchange as `recievedReply` gets it: the method and the request it
answers, the HTTP status (0 when there is none), the response headers, the
decoded body and the properties attached when the request was sent. -/
structure QNetworkReply where
  operation : NetOperation
  request : QNetworkRequest
  status : Int
  rawHeaderPairs : List RawHeaderPair
  body : QVariant
  properties : QVariantMap

/-- The completed exchange for an issued request, given what the server sent. -/
def replyTo (r : IssuedRequest) (status : Int) (headers : List RawHeaderPair)
    (body : QVariant) : QNetworkReply :=
  { operation := r.operation
    request := r.request
    status := status
    rawHeaderPairs := headers
    body := body
    properties := r.properties }

/-- Modelled from the spec: `isResponseType` is declared without a body; by its
documentation it tells whether the reply has the given HTTP status code. -/
def isResponseType (reply : QNetworkReply) (code : Int) : Bool :=
  reply.status == code

/-- Modelled from the spec: the matching inside `recievedReply` is missing. Whether
the reply answers a request of operation `op`: step 2 of the classification, on
the method and the path of the original request, an id place taking any
component. -/
def isReplyTo (op : Operation) (reply : QNetworkReply) : Bool :=
  matchesEndpoint op reply.operation reply.request.url.path

/-- Modelled from the spec: `isGetActivePlaylistReply` is declared without a body;
it is the match with the row of getActivePlaylist. -/
def isGetActivePlaylistReply (reply : QNetworkReply) : Bool :=
  isReplyTo .getActivePlaylist reply

/-- Modelled from the spec: `isModActivePlaylistReply` is declared without a body;
it is the match with the row of modActivePlaylist. -/
def isModActivePlaylistReply (reply : QNetworkReply) : Bool :=
  isReplyTo .modActivePlaylist reply

/-- Modelled from the spec: `isPasswordSetReply` is declared without a body; it is
the match with the row of setPlayerPassword. -/
def isPasswordSetReply (reply : QNetworkReply) : Bool :=
  isReplyTo .setPlayerPassword reply

/-- Modelled from the spec: `isPasswordRemoveReply` is declared without a body; it
is the match with the row of removePlayerPassword. -/
def isPasswordRemoveReply (reply : QNetworkReply) : Bool :=
  isReplyTo .removePlayerPassword reply

/-- Modelled from the spec: the dispatch inside `recievedReply` is missing. The
operation a reply belongs to: the first row of the table that its method and
path fit, if any. -/
def identify (reply : QNetworkReply) : Option Operation :=
  allOperations.find? (fun op => isReplyTo op reply)

/-- Modelled from the spec: step 5 takes the message "from a body field if
present, otherwise a generic fallback"; the spec names neither, here they are
the field `message` and the empty text. -/
def errorMessage (reply : QNetworkReply) : QString :=
  (reply.body.toMap.value "message").toQString

/-- The success signal of each operation. -/
def successSignal : Operation → SignalName
  | .authenticate => .authenticated
  | .createPlayer => .playerCreated
  | .getActivePlaylist => .newActivePlaylist
  | .modActivePlaylist => .activePlaylistModified
  | .setCurrentSong => .currentSongSet
  | .clearCurrentSong => .currentSongCleared
  | .setVolume => .volumeSetOnServer
  | .setPlayerPassword => .playerPasswordSet
  | .removePlayerPassword => .playerPasswordRemoved
  | .setPlayerLocation => .playerLocationSet
  | .modLibContents => .libSongsSyncedToServer
  | .getParticipantList => .newParticipantList
  | .getSortingAlgorithms => .gotSortingAlgorithms
  | .setPlayerState => .playerStateSet

/-- The failure signal of each operation. -/
def failureSignal : Operation → SignalName
  | .authenticate => .authFailed
  | .createPlayer => .playerCreationFailed
  | .getActivePlaylist => .getActivePlaylistFail
  | .modActivePlaylist => .activePlaylistModFailed
  | .setCurrentSong => .setCurrentSongFailed
  | .clearCurrentSong => .currentSongClearError
  | .setVolume => .setVolumeFailed
  | .setPlayerPassword => .playerPasswordSetError
  | .removePlayerPassword => .playerPasswordRemoveError
  | .setPlayerLocation => .playerLocationSetError
  | .modLibContents => .libModError
  | .getParticipantList => .getParticipantsError
  | .getSortingAlgorithms => .getSortingAlgorithmsError
  | .setPlayerState => .playerStateSetError

/-- Modelled from the spec: the reply handlers (`handleAuthReply`,
`handleCreatePlayerReply`, `handleReceivedActivePlaylist`,
`handleReceivedPlaylistMod`, ...) are declared without a body. Step 4: on success
the body is decoded into the typed result of the operation and its success
signal is emitted; arguments the signal repeats come from the properties of the
exchange. -/
def successEvent (op : Operation) (reply : QNetworkReply) : Signal :=
  match op with
  | .authenticate =>
      .authenticated (reply.body.toMap.value "ticket_hash").toQString
        (reply.body.toMap.value "user_id").toLongLong
  | .createPlayer => .playerCreated (reply.body.toMap.value "player_id").toLongLong
  | .getActivePlaylist => .newActivePlaylist reply.body.toMap
  | .modActivePlaylist =>
      .activePlaylistModified
        (reply.properties.value getSongsAddedPropertyName).toList.toIds
        (reply.properties.value getSongsRemovedPropertyName).toList.toIds
  | .setCurrentSong => .currentSongSet
  | .clearCurrentSong => .currentSongCleared
  | .setVolume => .volumeSetOnServer
  | .setPlayerPassword =>
      .playerPasswordSet (reply.properties.value getPlayerPasswordPropertyName).toQString
  | .removePlayerPassword => .playerPasswordRemoved
  | .setPlayerLocation =>
      .playerLocationSet
        (reply.properties.value getLocationAddressPropertyName).toQString
        (reply.properties.value getLocationCityPropertyName).toQString
        (reply.properties.value getLocationStatePropertyName).toQString
        (reply.properties.value getLocationZipcodePropertyName).toQString
  | .modLibContents =>
      .libSongsSyncedToServer
        ((reply.properties.value getSongsAddedPropertyName).toList.toIds ++
         (reply.properties.value getSongsDeletedPropertyName).toList.toIds)
  | .getParticipantList => .newParticipantList reply.body.toList
  | .getSortingAlgorithms => .gotSortingAlgorithms reply.body.toList
  | .setPlayerState =>
      .playerStateSet (reply.properties.value getStatePropertyName).toQString

/-- Modelled from the spec: the reply handlers are declared without a body.
Step 5: on failure the failure signal of the operation is emitted with the
message, the status code and the complete header set of the reply; the header
declares no other signal for a failed reply, whatever its status. -/
def failureEvent (op : Operation) (reply : QNetworkReply) : Signal :=
  let m := errorMessage reply
  let code := reply.status
  let h := reply.rawHeaderPairs
  match op with
  | .authenticate => .authFailed m code h
  | .createPlayer => .playerCreationFailed m code h
  | .getActivePlaylist => .getActivePlaylistFail m code h
  | .modActivePlaylist => .activePlaylistModFailed m code h
  | .setCurrentSong => .setCurrentSongFailed m code h
  | .clearCurrentSong => .currentSongClearError m code h
  | .setVolume => .setVolumeFailed m code h
  | .setPlayerPassword =>
      .playerPasswordSetError
        (reply.properties.value getPlayerPasswordPropertyName).toQString m code h
  | .removePlayerPassword => .playerPasswordRemoveError m code h
  | .setPlayerLocation => .playerLocationSetError m code h
  | .modLibContents => .libModError m code h
  | .getParticipantList => .getParticipantsError m code h
  | .getSortingAlgorithms => .getSortingAlgorithmsError m code h
  | .setPlayerState =>
      .playerStateSetError
        (reply.properties.value getStatePropertyName).toQString m code h

/-- Modelled from the spec: steps 3 to 5 for the identified operation: the status
is compared with the success status of the operation. -/
def handleReply (op : Operation) (reply : QNetworkReply) : Signal :=
  if isResponseType reply (endpoint op).successStatus then successEvent op reply
  else failureEvent op reply

/-- What handling one reply does: the signals emitted and the requests sent. -/
structure Effects where
  emitted : List Signal
  issued : List IssuedRequest

/-- Modelled from the spec: `recievedReply` is declared without a body. The
classification of section 4.3: the operation is identified from the method and
path of the original request, and its handler emits its one outcome signal.
Neither the spec nor the header says what happens to a reply that fits no row;
the model emits nothing there, and no theorem below rests on that branch, nor
on the dispatcher sending no request and keeping no state. -/
def recievedReply (_c : UDJServerConnection) (reply : QNetworkReply) : Effects :=
  match identify reply with
  | some op => ⟨[handleReply op reply], []⟩
  | none => ⟨[], []⟩

/-- The names of the signals emitted for one reply: the outcome kind. -/
def outcomeKind (c : UDJServerConnection) (reply : QNetworkReply) : List SignalName :=
  (recievedReply c reply).emitted.map Signal.name

/-! ## The property names together, and the memorial port -/

/-- The ten property-name constants of the header, in the order it declares them. -/
def propertyNames : List String :=
  [getPlayerNamePropertyName, getPlayerPasswordPropertyName,
   getLocationAddressPropertyName, getLocationCityPropertyName,
   getLocationStatePropertyName, getLocationZipcodePropertyName,
   getStatePropertyName, getSongsAddedPropertyName, getSongsDeletedPropertyName,
   getSongsRemovedPropertyName]

/-- Zero-based position of a letter in the alphabet, in either case. -/
def alphabetPosition (ch : Char) : Nat :=
  ch.toLower.toNat - 'a'.toNat

/-- The digit that the documentation of `getServerPortNumber` gives to a letter:
its position in the alphabet modulo 10 ("K = 10 % 10 = 0"). -/
def memorialDigit (ch : Char) : Nat :=
  alphabetPosition ch % 10

/-- The digits of the letters of a name, in order. -/
def memorialDigits (name : String) : List Nat :=
  name.toList.map memorialDigit

/-- The decimal number spelled by a list of digits, most significant first. -/
def decimalOfDigits (digits : List Nat) : Nat :=
  digits.foldl (fun acc d => 10 * acc + d) 0

/-- The number a string of decimal digits denotes; none when the string is empty
or has a character that is no digit. -/
def decimalValue (s : String) : Option Nat :=
  if s.toList.all Char.isDigit && !s.toList.isEmpty then
    some (decimalOfDigits (s.toList.map (fun ch => ch.toNat - '0'.toNat)))
  else none

/-! # Theorems -/


/-! ## Session and request builders -/

theorem rawHeader_setRawHeader_nil (name value : QByteArray) :
    rawHeader (setRawHeader [] name value) name = some value := by
  simp [rawHeader, setRawHeader]

theorem issue_ticket (c : UDJServerConnection) (call : Call)
    (h : call.operation ≠ .authenticate) :
    (issue c call).ticket = some c.ticket_hash := by
  simp [IssuedRequest.ticket, issue, h, prepareJSONRequest, rawHeader_setRawHeader_nil]

theorem issue_ticket_of_authRequired (c : UDJServerConnection) (call : Call)
    (h : (endpoint call.operation).authRequired = true) :
    (issue c call).ticket = some c.ticket_hash := by
  apply issue_ticket
  intro hop
  rw [hop] at h
  exact absurd h (by decide)

theorem issue_authenticate_no_ticket (c : UDJServerConnection) (call : Call)
    (h : call.operation = .authenticate) :
    (issue c call).ticket = none := by
  simp [IssuedRequest.ticket, issue, h, rawHeader]

theorem stepState_ticket (c : UDJServerConnection) (a : Action)
    (h : a.isSetTicket = false) : (stepState c a).ticket_hash = c.ticket_hash := by
  cases a <;> simp_all [stepState, Action.isSetTicket, UDJServerConnection.setUserId,
    UDJServerConnection.setPlayerId]

theorem runState_ticket (acts : List Action) :
    ∀ c : UDJServerConnection, (∀ a ∈ acts, a.isSetTicket = false) →
      (runState c acts).ticket_hash = c.ticket_hash := by
  induction acts with
  | nil => intro c _; rfl
  | cons a rest ih =>
    intro c h
    have ha : a.isSetTicket = false := h a (List.mem_cons_self a rest)
    have hrest : ∀ b ∈ rest, b.isSetTicket = false :=
      fun b hb => h b (List.mem_cons_of_mem a hb)
    simp only [runState]
    rw [ih (stepState c a) hrest, stepState_ticket c a ha]

/-- C1. Whatever the session state, once `setTicket t` has been called and no
other `setTicket` follows (other setters and operations may), the request issued
by any operation other than authenticate and getSortingAlgorithms carries the
header X-Udj-Ticket-Hash with value `t`. -/
theorem ticket_header_is_latest_ticket (c : UDJServerConnection) (t : QByteArray)
    (acts : List Action) (call : Call)
    (hacts : ∀ a ∈ acts, a.isSetTicket = false)
    (hauth : call.operation ≠ .authenticate)
    (_halgo : call.operation ≠ .getSortingAlgorithms) :
    rawHeader (issue (runState (c.setTicket t) acts) call).request.rawHeaders
      "X-Udj-Ticket-Hash" = some t := by
  have h := issue_ticket (runState (c.setTicket t) acts) call hauth
  rw [runState_ticket acts (c.setTicket t) hacts] at h
  exact h

/-- Instance of C1: after `setTicket "abc"`, a player id change, a playlist request and
a user id change, the request of modActivePlaylist carries the ticket "abc". -/
theorem ticket_header_is_latest_ticket_witness :
    rawHeader (issue (runState (UDJServerConnection.setTicket ⟨"old", 1, 2⟩ "abc")
        [.setPlayerId 5, .invoke .getActivePlaylist, .setUserId 9])
        (.modActivePlaylist [1] [2])).request.rawHeaders "X-Udj-Ticket-Hash" = some "abc" :=
  ticket_header_is_latest_ticket ⟨"old", 1, 2⟩ "abc"
    [.setPlayerId 5, .invoke .getActivePlaylist, .setUserId 9] (.modActivePlaylist [1] [2])
    (by decide) (by decide) (by decide)

/-! ## The endpoint table -/

theorem shapesOverlap_of_matches (s1 : List Segment) :
    ∀ (s2 : List Segment) (p : List String),
      matchesShape s1 p = true → matchesShape s2 p = true → shapesOverlap s1 s2 = true := by
  induction s1 with
  | nil =>
    intro s2 p h1 h2
    cases p with
    | nil => cases s2 with
      | nil => rfl
      | cons t ts => simp [matchesShape] at h2
    | cons x xs => simp [matchesShape] at h1
  | cons a ss ih =>
    intro s2 p h1 h2
    cases p with
    | nil => simp [matchesShape] at h1
    | cons x xs =>
      cases s2 with
      | nil => simp [matchesShape] at h2
      | cons b ts =>
        simp only [matchesShape, Bool.and_eq_true] at h1 h2
        have hrest := ih ts xs h1.2 h2.2
        cases a with
        | id => cases b <;> simp [shapesOverlap, hrest]
        | lit u =>
          cases b with
          | id => simp [shapesOverlap, hrest]
          | lit v =>
            have hu : u = x := by simpa [Segment.accepts] using h1.1
            have hv : v = x := by simpa [Segment.accepts] using h2.1
            simp [shapesOverlap, hrest, hu, hv]

theorem rowsClash_iff_eq : ∀ op1 op2 : Operation, rowsClash op1 op2 = true → op1 = op2 := by
  decide

theorem matchesEndpoint_unique (m : NetOperation) (p : List String) (op1 op2 : Operation)
    (h1 : matchesEndpoint op1 m p = true) (h2 : matchesEndpoint op2 m p = true) :
    op1 = op2 := by
  apply rowsClash_iff_eq
  simp only [matchesEndpoint, Bool.and_eq_true] at h1 h2
  simp only [rowsClash, Bool.and_eq_true, List.any_eq_true]
  refine ⟨⟨m, ?_, h2.1⟩, shapesOverlap_of_matches _ _ p h1.2 h2.2⟩
  simpa using h1.1

theorem mem_allOperations (op : Operation) : op ∈ allOperations := by
  cases op <;> simp [allOperations]

theorem matchesShape_instantiate (id : String) (shape : List Segment) :
    matchesShape shape (instantiate id shape) = true := by
  induction shape with
  | nil => rfl
  | cons a ss ih => cases a <;> simp [instantiate, matchesShape, Segment.accepts, ih]

/-- C6. Any two distinct operations have different (method, path shape) pairs
in the endpoint table, whichever of the listed methods is taken, and no
(method, path) pair is matched by both, id places taking any component. -/
theorem endpoint_rows_unambiguous (op1 op2 : Operation) (hne : op1 ≠ op2) :
    (∀ m1 ∈ (endpoint op1).methods, ∀ m2 ∈ (endpoint op2).methods,
      (m1, (endpoint op1).shape) ≠ (m2, (endpoint op2).shape)) ∧
    (∀ (m : NetOperation) (p : List String),
      ¬ (matchesEndpoint op1 m p = true ∧ matchesEndpoint op2 m p = true)) := by
  have hclash : rowsClash op1 op2 = false := by
    cases h : rowsClash op1 op2 with
    | false => rfl
    | true => exact absurd (rowsClash_iff_eq op1 op2 h) hne
  constructor
  · revert hne hclash
    revert op1 op2
    decide
  · intro m p h
    exact hne (matchesEndpoint_unique m p op1 op2 h.1 h.2)

/-- Instance of C6 at the two operations on the playlist URL. -/
theorem endpoint_rows_unambiguous_witness :
    (∀ m1 ∈ (endpoint .getActivePlaylist).methods,
      ∀ m2 ∈ (endpoint .modActivePlaylist).methods,
      (m1, (endpoint .getActivePlaylist).shape) ≠
        (m2, (endpoint .modActivePlaylist).shape)) ∧
    (∀ (m : NetOperation) (p : List String),
      ¬ (matchesEndpoint .getActivePlaylist m p = true ∧
         matchesEndpoint .modActivePlaylist m p = true)) :=
  endpoint_rows_unambiguous .getActivePlaylist .modActivePlaylist (by decide)

/-! ## The reply dispatcher -/

theorem identify_eq_some_iff (reply : QNetworkReply) (op : Operation) :
    identify reply = some op ↔ isReplyTo op reply = true := by
  constructor
  · intro h
    have := List.find?_some h
    simpa using this
  · intro h
    cases hf : identify reply with
    | none =>
      have := List.find?_eq_none.1 hf op (mem_allOperations op)
      simp [h] at this
    | some op2 =>
      have h2 : isReplyTo op2 reply = true := by
        have := List.find?_some hf
        simpa using this
      rw [matchesEndpoint_unique _ _ op2 op h2 h]

theorem isReplyTo_issue (c : UDJServerConnection) (call : Call) (reply : QNetworkReply)
    (hurl : reply.request.url = (issue c call).request.url)
    (hm : reply.operation ∈ (endpoint call.operation).methods) :
    isReplyTo call.operation reply = true := by
  have hpath : reply.request.url.path =
      instantiate (toString c.playerId) (endpoint call.operation).shape := by
    rw [hurl]
    by_cases h : call.operation = .authenticate <;> simp [issue, h, prepareJSONRequest, urlOf]
  simp only [isReplyTo, matchesEndpoint, Bool.and_eq_true]
  refine ⟨?_, ?_⟩
  · simpa using hm
  · rw [hpath]; exact matchesShape_instantiate _ _

theorem successEvent_name (op : Operation) (reply : QNetworkReply) :
    (successEvent op reply).name = successSignal op := by
  cases op <;> rfl

theorem failureEvent_name (op : Operation) (reply : QNetworkReply) :
    (failureEvent op reply).name = failureSignal op := by
  cases op <;> rfl

theorem signal_of_one_operation : ∀ op1 op2 : Operation,
    (successSignal op1 = successSignal op2 → op1 = op2) ∧
    (failureSignal op1 = failureSignal op2 → op1 = op2) ∧
    successSignal op1 ≠ failureSignal op2 := by
  decide

theorem recievedReply_of_isReplyTo (c : UDJServerConnection) (reply : QNetworkReply)
    (op : Operation) (h : isReplyTo op reply = true) :
    recievedReply c reply = ⟨[handleReply op reply], []⟩ := by
  simp [recievedReply, (identify_eq_some_iff reply op).2 h]

theorem handleReply_name (op : Operation) (reply : QNetworkReply) :
    (handleReply op reply).name =
      if reply.status = (endpoint op).successStatus then successSignal op
      else failureSignal op := by
  unfold handleReply
  by_cases h : reply.status = (endpoint op).successStatus
  · simp [isResponseType, h, successEvent_name]
  · simp [isResponseType, h, failureEvent_name]


/-- C5. Build the request of operation X; a reply that has the URL of that
request, a method of the row of X (the one the request was sent with, or
another the row lists) and the success status of X yields exactly one signal,
the success signal of X carrying the decoded result, and that signal is not the
success or failure signal of any other operation. -/
theorem build_then_classify_success (c c2 : UDJServerConnection) (call : Call)
    (reply : QNetworkReply)
    (hurl : reply.request.url = (issue c call).request.url)
    (hm : reply.operation ∈ (endpoint call.operation).methods)
    (hs : reply.status = (endpoint call.operation).successStatus) :
    (recievedReply c2 reply).emitted = [successEvent call.operation reply] ∧
    (successEvent call.operation reply).name = successSignal call.operation ∧
    ∀ op2, op2 ≠ call.operation →
      (successEvent call.operation reply).name ≠ successSignal op2 ∧
      (successEvent call.operation reply).name ≠ failureSignal op2 := by
  have hr := isReplyTo_issue c call reply hurl hm
  refine ⟨?_, successEvent_name _ _, ?_⟩
  · rw [recievedReply_of_isReplyTo c2 reply _ hr]
    simp [handleReply, isResponseType, hs]
  · intro op2 hne
    rw [successEvent_name]
    have h := signal_of_one_operation call.operation op2
    exact ⟨fun e => hne (h.1 e).symm, h.2.2⟩

/-- Instance of C5 at clearCurrentSong, which shares its URL with setCurrentSong. -/
theorem build_then_classify_success_witness :
    (recievedReply ⟨"abc", 7, 42⟩
        (replyTo (issue ⟨"abc", 7, 42⟩ .clearCurrentSong) 200 [] .invalid)).emitted =
      [successEvent .clearCurrentSong
        (replyTo (issue ⟨"abc", 7, 42⟩ .clearCurrentSong) 200 [] .invalid)] ∧
    (successEvent .clearCurrentSong
        (replyTo (issue ⟨"abc", 7, 42⟩ .clearCurrentSong) 200 [] .invalid)).name =
      successSignal .clearCurrentSong ∧
    ∀ op2, op2 ≠ Operation.clearCurrentSong →
      (successEvent .clearCurrentSong
        (replyTo (issue ⟨"abc", 7, 42⟩ .clearCurrentSong) 200 [] .invalid)).name ≠
          successSignal op2 ∧
      (successEvent .clearCurrentSong
        (replyTo (issue ⟨"abc", 7, 42⟩ .clearCurrentSong) 200 [] .invalid)).name ≠
          failureSignal op2 :=
  build_then_classify_success ⟨"abc", 7, 42⟩ ⟨"abc", 7, 42⟩ .clearCurrentSong
    (replyTo (issue ⟨"abc", 7, 42⟩ .clearCurrentSong) 200 [] .invalid)
    rfl (by decide) (by decide)


/-! ## The declared signals -/

/-- C9. Each failure signal declared by `UDJServerConnection` has the parameters
(errMessage, errorCode, headers) of types QString, int and list of raw header
pairs, preceded by at most one parameter (the attempted value); and an emitted
failure signal carries a value for each of the three. -/
theorem failure_signals_carry_message_code_headers (n : SignalName)
    (h : isFailureSignal n = true) :
    (∃ pre, signalParameters n = pre ++ failureParameters ∧ pre.length ≤ 1) ∧
    ∀ s : Signal, s.name = n → s.failureInfo.isSome = true := by
  constructor
  · cases n <;> first
      | exact ⟨[], rfl, by decide⟩
      | exact ⟨[_], rfl, by decide⟩
      | exact absurd h (by decide)
  · intro s hs
    subst hs
    cases s <;> first
      | rfl
      | simp [Signal.name, isFailureSignal] at h

/-- Instance of C9 at `playerPasswordSetError`, which has the attempted password first. -/
theorem failure_signals_carry_message_code_headers_witness :
    (∃ pre, signalParameters .playerPasswordSetError = pre ++ failureParameters ∧
      pre.length ≤ 1) ∧
    ∀ s : Signal, s.name = .playerPasswordSetError → s.failureInfo.isSome = true :=
  failure_signals_carry_message_code_headers .playerPasswordSetError (by decide)

/-- C10. Each of the fourteen public operations has exactly one success signal
and exactly one failure signal among the declared signals, these are the two
signals the dispatcher uses for it, and no signal belongs to two operations. -/
theorem one_success_and_one_failure_event_per_operation :
    (∀ op : Operation, successEventsOf op = [successSignal op] ∧
      failureEventsOf op = [failureSignal op]) ∧
    (∀ op1 op2 : Operation, ∀ n : SignalName,
      n ∈ successEventsOf op1 ++ failureEventsOf op1 →
      n ∈ successEventsOf op2 ++ failureEventsOf op2 → op1 = op2) ∧
    (∀ op : Operation, successSignal op ≠ failureSignal op) ∧
    allOperations.length = 14 ∧ allOperations.Nodup ∧ ∀ op, op ∈ allOperations := by
  refine ⟨by decide, by decide, by decide, by decide, by decide, by decide⟩

/-! ## The session setters -/

/-- C11. For every session state and every value, the empty ticket included,
after `setTicket v` the ticket hash is `v`, after `setUserId v` the user id is `v`
and after `setPlayerId v` the player id is `v`; the setters are total and check
nothing. -/
theorem setters_overwrite (c : UDJServerConnection) (t : QByteArray) (u : user_id_t)
    (p : player_id_t) :
    (c.setTicket t).ticket_hash = t ∧ (c.setUserId u).user_id = u ∧
    (c.setPlayerId p).playerId = p ∧ (c.setTicket "").ticket_hash = "" :=
  ⟨rfl, rfl, rfl, rfl⟩

/-- C12. Each setter changes its own field only: `setTicket` keeps the user id and
the player id, `setUserId` keeps the ticket hash and the player id, `setPlayerId`
keeps the ticket hash and the user id. -/
theorem setters_frame (c : UDJServerConnection) (t : QByteArray) (u : user_id_t)
    (p : player_id_t) :
    ((c.setTicket t).user_id = c.user_id ∧ (c.setTicket t).playerId = c.playerId) ∧
    ((c.setUserId u).ticket_hash = c.ticket_hash ∧
      (c.setUserId u).playerId = c.playerId) ∧
    ((c.setPlayerId p).ticket_hash = c.ticket_hash ∧
      (c.setPlayerId p).user_id = c.user_id) :=
  ⟨⟨rfl, rfl⟩, ⟨rfl, rfl⟩, ⟨rfl, rfl⟩⟩

/-- C18. Each setter is last-write-wins and idempotent: setting `a` and then `b`
leaves the state that setting `b` alone leaves, and setting `b` twice leaves the
state that setting it once leaves. -/
theorem setters_last_write_wins (c : UDJServerConnection) (ta tb : QByteArray)
    (ua ub : user_id_t) (pa pb : player_id_t) :
    ((c.setTicket ta).setTicket tb = c.setTicket tb ∧
      (c.setTicket tb).setTicket tb = c.setTicket tb) ∧
    ((c.setUserId ua).setUserId ub = c.setUserId ub ∧
      (c.setUserId ub).setUserId ub = c.setUserId ub) ∧
    ((c.setPlayerId pa).setPlayerId pb = c.setPlayerId pb ∧
      (c.setPlayerId pb).setPlayerId pb = c.setPlayerId pb) :=
  ⟨⟨rfl, rfl⟩, ⟨rfl, rfl⟩, ⟨rfl, rfl⟩⟩

/-- C19. Setters of different fields commute: from every session state, the
three setters applied in any of the six orders leave the state (t, u, p). -/
theorem setters_commute (c : UDJServerConnection) (t : QByteArray) (u : user_id_t)
    (p : player_id_t) :
    ((c.setTicket t).setUserId u).setPlayerId p = ⟨t, u, p⟩ ∧
    ((c.setTicket t).setPlayerId p).setUserId u = ⟨t, u, p⟩ ∧
    ((c.setUserId u).setTicket t).setPlayerId p = ⟨t, u, p⟩ ∧
    ((c.setUserId u).setPlayerId p).setTicket t = ⟨t, u, p⟩ ∧
    ((c.setPlayerId p).setTicket t).setUserId u = ⟨t, u, p⟩ ∧
    ((c.setPlayerId p).setUserId u).setTicket t = ⟨t, u, p⟩ :=
  ⟨rfl, rfl, rfl, rfl, rfl, rfl⟩

/-! ## The constants -/

/-- C16. The service root is the string "https://udjplayer.com:4897/udj/0_6/"; it
is scheme, host, port, api and version put together, the port being
`getServerPortNumber`; and the authentication URL is the root followed by
"auth". -/
theorem service_root_and_auth_url :
    getServerUrlPath = "https://udjplayer.com:4897/udj/0_6/" ∧
    getServerUrlPath =
      "https" ++ "://" ++ "udjplayer.com" ++ ":" ++ getServerPortNumber ++ "/" ++
        "udj" ++ "/" ++ "0_6" ++ "/" ∧
    getAuthUrl.toQString = getServerUrlPath ++ "auth" ∧
    getAuthUrl.toQString = "https://udjplayer.com:4897/udj/0_6/auth" := by
  decide

/-- C17. The letters of "Keith" have the zero-based alphabet positions 10, 4, 8,
19 and 7, which modulo 10 are the digits 0, 4, 8, 9, 7; the decimal number these
digits spell is 4897, the number that `getServerPortNumber` denotes. -/
theorem port_is_keith :
    "Keith".toList.map alphabetPosition = [10, 4, 8, 19, 7] ∧
    memorialDigits "Keith" = [0, 4, 8, 9, 7] ∧
    decimalOfDigits (memorialDigits "Keith") = 4897 ∧
    decimalValue getServerPortNumber = some (decimalOfDigits (memorialDigits "Keith")) := by
  decide

/-- C20. Among the ten property names, the name of the location state and the
name of the player state are both "state", and any two other constants differ:
two places of the list hold the same string only if they are these two. -/
theorem property_names_distinct_but_state :
    getLocationStatePropertyName = "state" ∧ getStatePropertyName = "state" ∧
    propertyNames =
      ["player_name", "playerPassword", "address", "city", "state", "zipcode", "state",
       "songs_added", "songs_deleted", "songs_removed"] ∧
    ∀ i j : Fin propertyNames.length, i ≠ j →
      (propertyNames.get i = propertyNames.get j ↔
        (i.val = 4 ∧ j.val = 6) ∨ (i.val = 6 ∧ j.val = 4)) := by
  decide

/-! ## Success statuses and decoded results -/

/-- C13. The success status is per operation, 201 for createPlayer and 200 for
every other operation: a reply to an operation gets the success signal of the
operation exactly when its status is that status, and the failure signal of the
operation otherwise; so a 200 reply to createPlayer and a 201 reply to another
operation are failures. -/
theorem success_status_per_operation (c : UDJServerConnection) (reply : QNetworkReply)
    (op : Operation) (hop : isReplyTo op reply = true) :
    (endpoint op).successStatus = (if op = .createPlayer then 201 else 200) ∧
    (outcomeKind c reply = [successSignal op] ↔
      reply.status = (if op = .createPlayer then 201 else 200)) ∧
    (outcomeKind c reply = [failureSignal op] ↔
      reply.status ≠ (if op = .createPlayer then 201 else 200)) := by
  have hst : (endpoint op).successStatus = (if op = .createPlayer then 201 else 200) := by
    cases op <;> rfl
  have hkind : outcomeKind c reply =
      [if reply.status = (endpoint op).successStatus then successSignal op
       else failureSignal op] := by
    simp [outcomeKind, recievedReply_of_isReplyTo c reply op hop, handleReply_name]
  have hne : successSignal op ≠ failureSignal op := (signal_of_one_operation op op).2.2
  rw [hkind, ← hst]
  refine ⟨rfl, ?_, ?_⟩
  · by_cases hs : reply.status = (endpoint op).successStatus
    · simp [hs]
    · simp [hs, hne.symm]
  · by_cases hs : reply.status = (endpoint op).successStatus
    · simp [hs, hne]
    · simp [hs]

/-- Instance of C13: a reply with status 200 to createPlayer is a failure. -/
theorem success_status_per_operation_witness :
    outcomeKind ⟨"abc", 7, 42⟩
        (replyTo (issue ⟨"abc", 7, 42⟩ (.createPlayer "den" "")) 200 []
          (.map [("player_id", .int 42)])) = [.playerCreationFailed] :=
  ((success_status_per_operation ⟨"abc", 7, 42⟩
    (replyTo (issue ⟨"abc", 7, 42⟩ (.createPlayer "den" "")) 200 []
      (.map [("player_id", .int 42)]))
    .createPlayer (by decide)).2.2).2 (by decide)

/-- C14. A reply to authenticate with status 200 whose body holds `ticket_hash` t
and `user_id` u emits `authenticated t u` and nothing else, so it does not emit
`authFailed`. -/
theorem auth_success_decoded (c : UDJServerConnection) (reply : QNetworkReply)
    (t : QByteArray) (u : user_id_t)
    (hop : isReplyTo .authenticate reply = true) (hs : reply.status = 200)
    (ht : reply.body.toMap.value "ticket_hash" = .string t)
    (hu : reply.body.toMap.value "user_id" = .int u) :
    (recievedReply c reply).emitted = [.authenticated t u] ∧
    SignalName.authFailed ∉ outcomeKind c reply := by
  have hemit : (recievedReply c reply).emitted = [.authenticated t u] := by
    rw [recievedReply_of_isReplyTo c reply _ hop]
    simp [handleReply, isResponseType, hs, endpoint, successEvent, ht, hu,
      QVariant.toQString, QVariant.toLongLong]
  refine ⟨hemit, ?_⟩
  simp [outcomeKind, hemit, Signal.name]

/-- Instance of C14: the body with ticket_hash "abc" and user_id 7. -/
theorem auth_success_decoded_witness :
    (recievedReply ⟨"", 0, 0⟩
        (replyTo (issue ⟨"", 0, 0⟩ (.authenticate "kurtis" "secret")) 200 []
          (.map [("ticket_hash", .string "abc"), ("user_id", .int 7)]))).emitted =
      [.authenticated "abc" 7] ∧
    SignalName.authFailed ∉ outcomeKind ⟨"", 0, 0⟩
        (replyTo (issue ⟨"", 0, 0⟩ (.authenticate "kurtis" "secret")) 200 []
          (.map [("ticket_hash", .string "abc"), ("user_id", .int 7)])) :=
  auth_success_decoded ⟨"", 0, 0⟩
    (replyTo (issue ⟨"", 0, 0⟩ (.authenticate "kurtis" "secret")) 200 []
      (.map [("ticket_hash", .string "abc"), ("user_id", .int 7)]))
    "abc" 7 (by decide) (by decide) rfl rfl

/-- C15. For every player name, createPlayer with an empty password, with or
without a location, sends a body that has the password field with the empty
string as its value; and a reply to createPlayer with status 201 whose body holds
`player_id` p emits `playerCreated p` and nothing else. -/
theorem create_player_empty_password (c c2 : UDJServerConnection)
    (playerName streetAddress city state zipcode : QString)
    (reply : QNetworkReply) (p : player_id_t)
    (hop : isReplyTo .createPlayer reply = true) (hs : reply.status = 201)
    (hp : reply.body.toMap.value "player_id" = .int p) :
    (issue c (.createPlayer playerName "")).payload.toMap.map Prod.fst =
      ["player_name", "playerPassword"] ∧
    (issue c (.createPlayer playerName "")).payload.toMap.value "playerPassword" =
      .string "" ∧
    (issue c (.createPlayerAt playerName "" streetAddress city state
      zipcode)).payload.toMap.value "playerPassword" = .string "" ∧
    (recievedReply c2 reply).emitted = [.playerCreated p] := by
  refine ⟨rfl, ?_, ?_, ?_⟩
  · simp [issue, Call.payload, QVariant.toMap, QVariantMap.value,
      getPlayerNamePropertyName, getPlayerPasswordPropertyName]
  · simp [issue, Call.payload, QVariant.toMap, QVariantMap.value,
      getPlayerNamePropertyName, getPlayerPasswordPropertyName]
  · rw [recievedReply_of_isReplyTo c2 reply _ hop]
    simp [handleReply, isResponseType, hs, endpoint, successEvent, hp,
      QVariant.toLongLong]

/-- Instance of C15: the player "den" with no password, and the reply 201 with
player_id 42. -/
theorem create_player_empty_password_witness :
    (issue ⟨"abc", 7, 0⟩ (.createPlayer "den" "")).payload.toMap.map Prod.fst =
      ["player_name", "playerPassword"] ∧
    (issue ⟨"abc", 7, 0⟩ (.createPlayer "den" "")).payload.toMap.value "playerPassword" =
      .string "" ∧
    (issue ⟨"abc", 7, 0⟩ (.createPlayerAt "den" "" "1 Main St" "Urbana" "IL"
      "61801")).payload.toMap.value "playerPassword" = .string "" ∧
    (recievedReply ⟨"abc", 7, 0⟩
        (replyTo (issue ⟨"abc", 7, 0⟩ (.createPlayer "den" "")) 201 []
          (.map [("player_id", .int 42)]))).emitted = [.playerCreated 42] :=
  create_player_empty_password ⟨"abc", 7, 0⟩ ⟨"abc", 7, 0⟩ "den" "1 Main St" "Urbana"
    "IL" "61801"
    (replyTo (issue ⟨"abc", 7, 0⟩ (.createPlayer "den" "")) 201 []
      (.map [("player_id", .int 42)]))
    42 (by decide) (by decide) rfl

end UDJ
